import Mathlib

/-!
Verification of the getinv tenant-resolution and scoped-credential bridge.

This file is a shallow embedding of the core request-handling code:
the input validators (app/utils/validation.server.ts), the tenant
resolver `getAdminIdForShop`, the credential minter `mintAppJwt`, the
edge-function caller `callEdgeFunction`, and the `/api/sync` `loader`
and `action` handlers (the route module that imports the validators).

JavaScript values reaching the validators are modelled by `JsVal`
(numbers as rationals, which represent all finite doubles appearing in
the claims exactly). JS `trim` and `toLowerCase` are modelled over the
ASCII character ranges the validators care about. HMAC-SHA256 is
modelled as an idealized MAC: the signature is a value determined by
the key and the signing input, and verification recomputes it.
-/

namespace GetInv

/-- A JavaScript value as seen by the validators: `undefined`, `null`,
booleans, numbers (modelled as rationals), strings and objects. -/
inductive JsVal where
  | undef
  | jsNull
  | b (x : Bool)
  | n (q : ℚ)
  | s (x : String)
  | obj (fields : List (String × JsVal))
deriving Repr

/-- JS truthiness of a value (`Boolean(v)` / `if (v)`). -/
def jsTruthy : JsVal → Bool
  | .undef => false
  | .jsNull => false
  | .b x => x
  | .n q => q != 0
  | .s x => x != ""
  | .obj _ => true

/-- Whitespace characters removed by `String.prototype.trim` (ASCII part). -/
def isJsWhite (c : Char) : Bool :=
  c == ' ' || c == '\t' || c == '\n' || c == '\r' || c == '\x0b' || c == '\x0c'

/-- Drop leading whitespace from a character list. -/
def dropLeadWhite : List Char → List Char
  | [] => []
  | c :: cs => if isJsWhite c then dropLeadWhite cs else c :: cs

/-- JS `String.prototype.trim`: remove leading and trailing whitespace. -/
def jsTrim (s : String) : String :=
  String.mk (dropLeadWhite ((dropLeadWhite s.data.reverse).reverse))

/-- ASCII lower-casing of one character (`toLowerCase` on A-Z). -/
def toLowerCh (c : Char) : Char :=
  if 'A' ≤ c ∧ c ≤ 'Z' then Char.ofNat (c.toNat + 32) else c

/-- JS `String.prototype.toLowerCase` (ASCII part). -/
def jsToLower (s : String) : String := String.mk (s.data.map toLowerCh)

/-- ASCII alphanumeric, the `[a-zA-Z0-9]` character class. -/
def isAlphaNum (c : Char) : Bool :=
  ('a' ≤ c ∧ c ≤ 'z') || ('A' ≤ c ∧ c ≤ 'Z') || ('0' ≤ c ∧ c ≤ '9')

/-- The `[a-zA-Z0-9\-]` character class of the shop-domain label. -/
def isLabelChar (c : Char) : Bool := isAlphaNum c || c == '-'

/-- The `[a-zA-Z0-9\-_]` character class of `validateAdminId`. -/
def isAdminChar (c : Char) : Bool := isAlphaNum c || c == '-' || c == '_'

/-- Tail of the shop-domain label under the source regex
`[a-zA-Z0-9][a-zA-Z0-9\-]*[a-zA-Z0-9]`: every character is a label
character and the final one is alphanumeric. -/
def tailOk : List Char → Bool
  | [] => false
  | [c] => isAlphaNum c
  | c :: cs => isLabelChar c && tailOk cs

/-- The label part of the source regex: first character alphanumeric,
then `tailOk` (so the label needs at least two characters). -/
def labelOk : List Char → Bool
  | [] => false
  | [_] => false
  | c :: cs => isAlphaNum c && tailOk cs

/-- The characters of the fixed suffix `.myshopify.com`. -/
def sfxChars : List Char := ".myshopify.com".data

/-- The source regex `SHOP_DOMAIN_PATTERN`
`/^[a-zA-Z0-9][a-zA-Z0-9\-]*[a-zA-Z0-9]\.myshopify\.com$/`: the string
splits as a label (which cannot contain a dot) followed by the
14-character fixed suffix. -/
def shopPattern (s : String) : Bool :=
  let cs := s.data
  (cs.drop (cs.length - 14) == sfxChars) && labelOk (cs.take (cs.length - 14))

/-- Model of `validateShopDomain` from validation.server.ts: requires a string,
trims and lower-cases it, rejects empty, over-long (> 255) and
non-matching values, and returns the normalized value. -/
def validateShopDomain : JsVal → Except String String
  | .s v =>
    let t := jsToLower (jsTrim v)
    if t = "" then .error "Shop domain cannot be empty"
    else if 255 < t.length then .error "Shop domain is too long"
    else if shopPattern t then .ok t
    else .error "Invalid shop domain format. Must be in format: store.myshopify.com"
  | _ => .error "Shop domain must be a string"

/-- The closed intent set `VALID_INTENTS` from validation.server.ts. -/
def VALID_INTENTS : List String := ["pull", "push_changed", "push_all", "toggle_auto"]

/-- Model of `validateIntent` from validation.server.ts. -/
def validateIntent : JsVal → Except String String
  | .s v =>
    if v ∈ VALID_INTENTS then .ok v
    else .error "Invalid intent. Must be one of: pull, push_changed, push_all, toggle_auto"
  | _ => .error "Intent must be a string"

/-- Model of `validateIntervalMinutes` from validation.server.ts: `undefined` and
`null` give the default; otherwise the value must be an integer number
in [1, 1440]. -/
def validateIntervalMinutes (v : JsVal) (defaultValue : ℚ) : Except String ℚ :=
  match v with
  | .undef => .ok defaultValue
  | .jsNull => .ok defaultValue
  | .n q =>
    if q.den ≠ 1 then .error "Interval minutes must be an integer"
    else if q < 1 then .error "Interval minutes must be at least 1"
    else if 1440 < q then .error "Interval minutes cannot exceed 1440 (24 hours)"
    else .ok q
  | _ => .error "Interval minutes must be a number"

/-- Model of `validateAdminId` from validation.server.ts: requires a string,
trims it, rejects empty, over-long (> 255) and values outside
`[a-zA-Z0-9\-_]+`, and returns the trimmed value. -/
def validateAdminId : JsVal → Except String String
  | .s v =>
    let t := jsTrim v
    if t = "" then .error "Admin ID cannot be empty"
    else if 255 < t.length then .error "Admin ID is too long"
    else if t.data.all isAdminChar then .ok t
    else .error "Admin ID contains invalid characters"
  | _ => .error "Admin ID must be a string"

/-- A signed application JWT as produced by `mintAppJwt` (jose `SignJWT`). -/
structure Jwt where
  alg : String
  userId : String
  role : String
  iat : Nat
  exp : Nat
  sig : String
deriving Repr, DecidableEq

/-- Idealized HMAC-SHA256: the tag is determined by the key and the
signing input, and two tags agree exactly when key and input agree. -/
def hmacSig (secret payload : String) : String :=
  "hmac-sha256(" ++ secret ++ "," ++ payload ++ ")"

/-- Serialization of the protected header and payload as signing input. -/
def jwtSigningInput (alg userId role : String) (iat exp : Nat) : String :=
  alg ++ "|" ++ userId ++ "|" ++ role ++ "|" ++ toString iat ++ "|" ++ toString exp

/-- Model of `mintAppJwt` from the sync route: HS256 token with payload
`userId` (the tenant admin id, i.e. the subject) and `role: "admin"`,
issued-at set to the current time and expiry 5 minutes (300 s) later. -/
def mintAppJwt (secret adminId : String) (now : Nat) : Jwt :=
  { alg := "HS256"
    userId := adminId
    role := "admin"
    iat := now
    exp := now + 300
    sig := hmacSig secret (jwtSigningInput "HS256" adminId "admin" now (now + 300)) }

/-- JWT verification as jose `jwtVerify` behaves with HS256 and no clock
tolerance: the recomputed signature must match and the token is valid
strictly before its `exp` timestamp. -/
def verifyJwt (secret : String) (tok : Jwt) (now : Nat) : Bool :=
  tok.alg == "HS256" &&
  tok.sig == hmacSig secret (jwtSigningInput tok.alg tok.userId tok.role tok.iat tok.exp) &&
  decide (now < tok.exp)

/-- Does `cs` start with `sub`? (Helper for JS `String.includes`.) -/
def listStarts : List Char → List Char → Bool
  | _, [] => true
  | [], _ :: _ => false
  | c :: cs, d :: ds => c == d && listStarts cs ds

/-- Does `cs` contain `sub` as a contiguous run? -/
def listHasSub : List Char → List Char → Bool
  | [], sub => sub.isEmpty
  | c :: cs, sub => listStarts (c :: cs) sub || listHasSub cs sub

/-- JS `String.prototype.includes`. -/
def strHasSub (s sub : String) : Bool := listHasSub s.data sub.data

/-- Model of `sanitizeErrorMessage` from validation.server.ts, on an `Error`
message: in production only validation-style messages pass through,
anything else becomes a generic message; in development the message is
returned as is. -/
def sanitizeErrorMessage (m : String) (isProduction : Bool) : String :=
  if isProduction then
    if strHasSub m "must be" || strHasSub m "cannot" || strHasSub m "Invalid" then m
    else "An error occurred processing your request. Please try again later."
  else m

/-- The `type` discriminant of `ConnectionError` in the sync route. -/
inductive ErrType where
  | schema_not_exposed
  | permission_denied
  | table_not_found
  | network_error
  | unknown
deriving Repr, DecidableEq

/-- The raw failure a backing-store (Supabase) query can report:
message, error code and details, as read by the classification code. -/
structure StoreErr where
  message : String
  code : String
  details : String
deriving Repr, DecidableEq

/-- The `ConnectionError` interface of the sync route. -/
structure ConnectionError where
  type : ErrType
  message : String
  details : Option String
  statusCode : Option Nat
deriving Repr, DecidableEq

/-- The substring-based classification of backing-store errors inside
`getAdminIdForShop` (the chain of checks on `errorCode` and
`errorMessage`). -/
def classifyStoreErr (e : StoreErr) : ConnectionError :=
  let msg := if e.message = "" then "Unknown error" else e.message
  let details : Option String :=
    if e.details ≠ "" then some e.details
    else if e.code ≠ "" then some e.code else none
  if e.code == "PGRST116" || strHasSub msg "schema" || strHasSub msg "does not exist" then
    { type := .schema_not_exposed
      message := "Schema \"app_private\" is not accessible. Add \"app_private\" to Supabase API -> Exposed schemas in your Supabase dashboard."
      details := details, statusCode := none }
  else if e.code == "PGRST301" || strHasSub msg "permission" || strHasSub msg "403" then
    { type := .permission_denied
      message := "Permission denied accessing app_private.shopify_shops. Check that your SUPABASE_SERVICE_ROLE_KEY has proper permissions."
      details := details, statusCode := some 403 }
  else if strHasSub msg "relation" && strHasSub msg "does not exist" then
    { type := .table_not_found
      message := "Table \"app_private.shopify_shops\" does not exist. Ensure the table is created in your Supabase database."
      details := details, statusCode := none }
  else if strHasSub msg "fetch" || strHasSub msg "network" || strHasSub msg "ECONNREFUSED" then
    { type := .network_error
      message := "Network error connecting to Supabase: " ++ msg
      details := details, statusCode := none }
  else
    { type := .unknown, message := msg, details := details, statusCode := none }

/-- One row of the `shopify_settings` table. The route selects and
writes the columns below; `created_at` is filled by the database on
insert. -/
structure SettingsRow where
  admin_id : String
  auto_sync_enabled : Bool
  auto_sync_interval_minutes : ℚ
  last_pull_at : Option Nat
  last_push_at : Option Nat
  created_at : Nat
  updated_at : Nat
deriving Repr, DecidableEq

/-- The backing store and its failure modes as the route observes them:
the `app_private.shopify_shops` rows (shop_domain, admin_id — the
latter a raw JS value, since the store may hold malformed data), a
possible query error on the shops lookup, the `shopify_settings` rows
and possible read/write errors on them. -/
structure Db where
  shops : List (String × JsVal)
  shopsErr : Option StoreErr
  settings : List SettingsRow
  settingsReadErr : Option String
  settingsWriteErr : Option String
deriving Repr

/-- Result type of `getAdminIdForShop`. -/
structure ResolveRes where
  adminId : Option String
  error : Option ConnectionError
deriving Repr, DecidableEq

/-- The key the resolver passes to `.eq("shop_domain", ...)`: the raw
caller-supplied `shopDomain` argument, not the `validatedShopDomain`
computed from it. -/
def shopLookupKey (shopDomain : String) : String := shopDomain

/-- Model of `getAdminIdForShop` from the sync route: validate the shop domain
(a failure becomes a resolver error of type `unknown`), query the
`shopify_shops` table keyed on the raw shop domain, classify a query
failure, and when a truthy `admin_id` comes back re-validate it with
`validateAdminId` before returning it; a falsy or absent `admin_id`
yields `adminId := none` with no error. -/
def getAdminIdForShop (db : Db) (shopDomain : String) : ResolveRes :=
  match validateShopDomain (.s shopDomain) with
  | .error m => { adminId := none, error := some { type := .unknown, message := m, details := none, statusCode := none } }
  | .ok _ =>
    match db.shopsErr with
    | some e => { adminId := none, error := some (classifyStoreErr e) }
    | none =>
      match db.shops.find? (fun r => r.1 == shopLookupKey shopDomain) with
      | none => { adminId := none, error := none }
      | some row =>
        if jsTruthy row.2 then
          match validateAdminId row.2 with
          | .ok v => { adminId := some v, error := none }
          | .error _ =>
            { adminId := none
              error := some { type := .unknown
                              message := "Invalid admin ID format returned from database"
                              details := none, statusCode := none } }
        else { adminId := none, error := none }

/-- The columns the loader selects from `shopify_settings`. -/
structure SettingsView where
  auto_sync_enabled : Bool
  auto_sync_interval_minutes : ℚ
  last_pull_at : Option Nat
  last_push_at : Option Nat
  created_at : Nat
  updated_at : Nat
deriving Repr, DecidableEq

/-- Projection of a stored row onto the selected columns. -/
def settingsView (r : SettingsRow) : SettingsView :=
  { auto_sync_enabled := r.auto_sync_enabled
    auto_sync_interval_minutes := r.auto_sync_interval_minutes
    last_pull_at := r.last_pull_at
    last_push_at := r.last_push_at
    created_at := r.created_at
    updated_at := r.updated_at }

/-- The JSON body the loader returns, with one `Option` level per
field that may be absent from the object; `settings := some none`
means the field is present with value `null`. `troubleshooting` records
whether the fixed troubleshooting object is included. -/
structure LoaderResp where
  status : Nat
  connected : Option Bool
  shopDomain : Option String
  adminId : Option String
  reason : Option String
  error : Option String
  errorType : Option ErrType
  errorDetails : Option String
  troubleshooting : Bool
  settings : Option (Option SettingsView)
deriving Repr, DecidableEq

/-- The not-linked `reason` text of the loader. -/
def notLinkedReason : String :=
  "This Shopify store is installed, but it is not linked to a GetInv tenant yet. Link it from your GetInv app first."

/-- The `GET /api/sync` loader from the sync route: resolve the tenant
binding; a resolver error gives a `connected: false` envelope with the
classified error (status from the classification or 500); no binding
gives `connected: false` with a `reason`; with a binding, a settings
read failure degrades to `connected: true, settings: null` plus the
store error message at status 200; otherwise the settings row (or
`null`) is returned. -/
def loader (db : Db) (sessionShop : String) : LoaderResp :=
  let r := getAdminIdForShop db sessionShop
  match r.error with
  | some ce =>
    { status := ce.statusCode.getD 500
      connected := some false, shopDomain := some sessionShop, adminId := none
      reason := none, error := some ce.message, errorType := some ce.type
      errorDetails := ce.details, troubleshooting := true, settings := none }
  | none =>
    match r.adminId with
    | none =>
      { status := 200
        connected := some false, shopDomain := some sessionShop, adminId := none
        reason := some notLinkedReason, error := none, errorType := none
        errorDetails := none, troubleshooting := false, settings := none }
    | some adminId =>
      match db.settingsReadErr with
      | some m =>
        { status := 200
          connected := some true, shopDomain := some sessionShop, adminId := some adminId
          reason := none, error := some m, errorType := none
          errorDetails := none, troubleshooting := false, settings := some none }
      | none =>
        { status := 200
          connected := some true, shopDomain := some sessionShop, adminId := some adminId
          reason := none, error := none, errorType := none
          errorDetails := none, troubleshooting := false
          settings := some ((db.settings.find? (fun row => row.admin_id == adminId)).map settingsView) }

/-- The raw HTTP response of an edge function: status, body text, and
the JSON value the text parses to when it is JSON (`none` otherwise). -/
structure EdgeHttpResp where
  status : Nat
  text : String
  json : Option JsVal
deriving Repr

/-- The `data` value computed by `callEdgeFunction` from the response
text: `null` for an empty body, the parsed JSON when it parses, and a
`raw`-wrapped object otherwise. -/
def edgeData (r : EdgeHttpResp) : JsVal :=
  if r.text = "" then .jsNull
  else
    match r.json with
    | some v => v
    | none => .obj [("raw", .s r.text)]

/-- What `callEdgeFunction` returns to the dispatcher. -/
structure EdgeResult where
  ok : Bool
  status : Nat
  data : JsVal
deriving Repr

/-- A recorded outbound edge-function request: function name, the
`Authorization: Bearer` credential, and the JSON payload. -/
structure EdgeCall where
  fnName : String
  authScheme : String
  bearer : Jwt
  payload : List (String × JsVal)
deriving Repr

/-- The behavior of the external edge functions: response per
(function name, payload). -/
def EdgeResponder : Type := String → List (String × JsVal) → EdgeHttpResp

/-- Model of `callEdgeFunction` from the sync route: a single POST carrying the
JWT as a bearer credential and a JSON body, returning `ok` (status in
[200, 300)), the raw status, and the parsed body; the performed call
is returned alongside so the dispatcher can record it. -/
def callEdgeFunction (edge : EdgeResponder) (fnName : String) (jwt : Jwt)
    (payload : List (String × JsVal)) : EdgeResult × EdgeCall :=
  let r := edge fnName payload
  ({ ok := decide (200 ≤ r.status) && decide (r.status < 300), status := r.status, data := edgeData r },
   { fnName := fnName, authScheme := "Bearer", bearer := jwt, payload := payload })

/-- The JSON body of a `POST /api/sync` request: the three fields the
action reads, each an arbitrary JS value (`undef` when absent). -/
structure ReqBody where
  intent : JsVal
  enabled : JsVal
  intervalMinutes : JsVal

/-- The JSON body the action returns, one constructor per response
shape of the source. -/
inductive ActionBody where
  | connError (msg : String) (etype : ErrType) (details : Option String)
  | notLinked (msg : String)
  | invalidJson (msg : String)
  | invalidIntent (msg : String)
  | invalidAdminFmt (msg : String)
  | relay (data : JsVal)
  | invalidInterval (msg : String)
  | toggleFailed (msg : String)
  | toggleOk (auto_sync_enabled : Bool) (auto_sync_interval_minutes : ℚ)
  | unknownIntent (msg : String)
deriving Repr

/-- An action response: HTTP status and JSON body. -/
structure ActionResp where
  status : Nat
  body : ActionBody
deriving Repr

/-- The observable effects of one action request: which admin ids a
JWT was minted for, and which edge-function calls went out. -/
structure Trace where
  mintCalls : List String
  edgeCalls : List EdgeCall
deriving Repr

/-- Result of one action request: response, effect trace, and the
backing store afterwards. -/
structure ActionOut where
  resp : ActionResp
  trace : Trace
  db : Db

/-- Update of an existing `shopify_settings` row by the toggle upsert:
the conflict update writes the two auto-sync columns and `updated_at`. -/
def applySettingsUpdate (en : Bool) (iv : ℚ) (t : Nat) (r : SettingsRow) : SettingsRow :=
  { r with auto_sync_enabled := en, auto_sync_interval_minutes := iv, updated_at := t }

/-- The row inserted when no row for the tenant exists: the upserted
columns plus the database defaults (no pull/push timestamps,
`created_at` now). -/
def freshSettingsRow (a : String) (en : Bool) (iv : ℚ) (t : Nat) : SettingsRow :=
  { admin_id := a, auto_sync_enabled := en, auto_sync_interval_minutes := iv,
    last_pull_at := none, last_push_at := none, created_at := t, updated_at := t }

/-- The `upsert(..., onConflict: "admin_id")` write: if a row with the
admin id exists it is updated in place, otherwise a fresh row is
inserted. -/
def upsertSettings (rows : List SettingsRow) (a : String) (en : Bool) (iv : ℚ)
    (t : Nat) : List SettingsRow :=
  if rows.any (fun r => r.admin_id == a) then
    rows.map (fun r => if r.admin_id == a then applySettingsUpdate en iv t r else r)
  else
    rows ++ [freshSettingsRow a en iv t]

/-- The not-linked error text of the action. -/
def notLinkedActionMsg : String :=
  "Shop not linked to GetInv tenant yet. Go to your GetInv app and connect this shop first."

/-- The `POST /api/sync` action from the sync route: resolve the tenant
(resolver error or missing binding end the request before anything
else), parse the body, validate the intent, re-validate the admin id,
mint the JWT, then dispatch: `pull` and the two push intents each make
exactly one edge-function call whose status and data are relayed back;
`toggle_auto` validates its interval and upserts the settings row. -/
def action (db : Db) (edge : EdgeResponder) (secret : String) (isProd : Bool)
    (sessionShop : String) (body? : Option ReqBody) (now : Nat) : ActionOut :=
  let r := getAdminIdForShop db sessionShop
  match r.error with
  | some ce =>
    { resp := { status := ce.statusCode.getD 500, body := .connError ce.message ce.type ce.details }
      trace := { mintCalls := [], edgeCalls := [] }, db := db }
  | none =>
  match r.adminId with
  | none =>
    { resp := { status := 409, body := .notLinked notLinkedActionMsg }
      trace := { mintCalls := [], edgeCalls := [] }, db := db }
  | some adminId =>
  match body? with
  | none =>
    { resp := { status := 400, body := .invalidJson "Invalid JSON in request body" }
      trace := { mintCalls := [], edgeCalls := [] }, db := db }
  | some body =>
  match validateIntent body.intent with
  | .error m =>
    { resp := { status := 400, body := .invalidIntent (sanitizeErrorMessage m isProd) }
      trace := { mintCalls := [], edgeCalls := [] }, db := db }
  | .ok intent =>
  match validateAdminId (.s adminId) with
  | .error _ =>
    { resp := { status := 500, body := .invalidAdminFmt "Invalid admin ID format" }
      trace := { mintCalls := [], edgeCalls := [] }, db := db }
  | .ok validatedAdminId =>
  let jwt := mintAppJwt secret validatedAdminId now
  if intent = "pull" then
    let rc := callEdgeFunction edge "shopify-pull-products" jwt []
    { resp := { status := rc.1.status, body := .relay rc.1.data }
      trace := { mintCalls := [validatedAdminId], edgeCalls := [rc.2] }, db := db }
  else if intent = "push_changed" then
    let rc := callEdgeFunction edge "shopify-push-products" jwt [("mode", .s "changed")]
    { resp := { status := rc.1.status, body := .relay rc.1.data }
      trace := { mintCalls := [validatedAdminId], edgeCalls := [rc.2] }, db := db }
  else if intent = "push_all" then
    let rc := callEdgeFunction edge "shopify-push-products" jwt [("mode", .s "all"), ("force", .b true)]
    { resp := { status := rc.1.status, body := .relay rc.1.data }
      trace := { mintCalls := [validatedAdminId], edgeCalls := [rc.2] }, db := db }
  else if intent = "toggle_auto" then
    let en := jsTruthy body.enabled
    match validateIntervalMinutes body.intervalMinutes 15 with
    | .error m =>
      { resp := { status := 400, body := .invalidInterval (sanitizeErrorMessage m isProd) }
        trace := { mintCalls := [validatedAdminId], edgeCalls := [] }, db := db }
    | .ok iv =>
      match db.settingsWriteErr with
      | some m =>
        { resp := { status := 500, body := .toggleFailed m }
          trace := { mintCalls := [validatedAdminId], edgeCalls := [] }, db := db }
      | none =>
        { resp := { status := 200, body := .toggleOk en iv }
          trace := { mintCalls := [validatedAdminId], edgeCalls := [] }
          db := { db with settings := upsertSettings db.settings validatedAdminId en iv now } }
  else
    { resp := { status := 400, body := .unknownIntent "Unknown intent" }
      trace := { mintCalls := [validatedAdminId], edgeCalls := [] }, db := db }

/-- Does the final character of the list differ from a hyphen? Used to
phrase the wording "not ending with a hyphen" of the spec. -/
def lastNotHyphen : List Char → Bool
  | [] => false
  | [c] => c != '-'
  | _ :: c :: cs => lastNotHyphen (c :: cs)

/-- Modelled from the spec wording for C8: a label "of alphanumeric and
hyphen characters, not starting or ending with a hyphen" — with no
minimum length beyond being non-empty. -/
def specLabelOk : List Char → Bool
  | [] => false
  | c :: cs => (c :: cs).all isLabelChar && c != '-' && lastNotHyphen (c :: cs)

/-- Modelled from the spec wording for C8: the single-label-plus-fixed
suffix domain pattern, label as in `specLabelOk`, suffix
`.myshopify.com`. -/
def specShopOk (s : String) : Bool :=
  let cs := s.data
  (cs.drop (cs.length - 14) == sfxChars) && specLabelOk (cs.take (cs.length - 14))

/-- The amended label condition: the label shape of the spec strengthened
with the two-character minimum the source regex actually imposes. -/
def amendedLabelOk (l : List Char) : Bool :=
  specLabelOk l && decide (2 ≤ l.length)

/-- The amended domain pattern: spec pattern with a label of at least
two characters. -/
def amendedShopOk (s : String) : Bool :=
  let cs := s.data
  (cs.drop (cs.length - 14) == sfxChars) && amendedLabelOk (cs.take (cs.length - 14))

end GetInv

deriving instance DecidableEq for Except

namespace GetInv

/-- Claim C2: for every validated tenant id, `mintAppJwt` produces an
HMAC-SHA256 (HS256) token whose payload carries the tenant id as
subject (`userId`) and `role = "admin"`, with issued-at the current
time and a fixed 5-minute expiry; the token verifies 4 min 59 s after
minting and fails verification 5 min 1 s after minting. -/
theorem mintAppJwt_claims_and_expiry (secret adminId : String) (T : Nat) :
    (mintAppJwt secret adminId T).alg = "HS256" ∧
    (mintAppJwt secret adminId T).userId = adminId ∧
    (mintAppJwt secret adminId T).role = "admin" ∧
    (mintAppJwt secret adminId T).iat = T ∧
    (mintAppJwt secret adminId T).exp = T + 300 ∧
    verifyJwt secret (mintAppJwt secret adminId T) (T + 299) = true ∧
    verifyJwt secret (mintAppJwt secret adminId T) (T + 301) = false := by
  refine ⟨rfl, rfl, rfl, rfl, rfl, ?_, ?_⟩
  · simp [verifyJwt, mintAppJwt]
  · simp [verifyJwt, mintAppJwt]

/-- Claim C9: `validateIntervalMinutes` succeeds exactly on `undefined`
and `null` (returning the default 15) and on integer numbers in
[1, 1440] (returned unchanged); every other input fails — in
particular 0, 1441, 1.5 and the string "15" fail with the
corresponding validation errors. -/
theorem validateIntervalMinutes_spec (v : JsVal) (q : ℚ) :
    (validateIntervalMinutes v 15 = .ok q ↔
      ((v = .undef ∨ v = .jsNull) ∧ q = 15) ∨
      (v = .n q ∧ q.den = 1 ∧ 1 ≤ q ∧ q ≤ 1440)) ∧
    validateIntervalMinutes (.n 0) 15 = .error "Interval minutes must be at least 1" ∧
    validateIntervalMinutes (.n 1441) 15 =
      .error "Interval minutes cannot exceed 1440 (24 hours)" ∧
    validateIntervalMinutes (.n (3 / 2)) 15 = .error "Interval minutes must be an integer" ∧
    validateIntervalMinutes (.s "15") 15 = .error "Interval minutes must be a number" := by
  refine ⟨?_, rfl, rfl, ?_, rfl⟩
  · cases v with
    | undef => simp [validateIntervalMinutes, eq_comm]
    | jsNull => simp [validateIntervalMinutes, eq_comm]
    | n p =>
      simp only [validateIntervalMinutes]
      split_ifs with h1 h2 h3
      · constructor
        · intro h
          exact absurd h (by simp)
        · rintro (⟨hv, _⟩ | ⟨hv, hden, _, _⟩)
          · rcases hv with hv | hv <;> exact absurd hv (by simp)
          · injection hv with hv
            subst hv
            exact absurd hden h1
      · constructor
        · intro h
          exact absurd h (by simp)
        · rintro (⟨hv, _⟩ | ⟨hv, _, hlo, _⟩)
          · rcases hv with hv | hv <;> exact absurd hv (by simp)
          · injection hv with hv
            subst hv
            exact absurd hlo (not_le.mpr h2)
      · constructor
        · intro h
          exact absurd h (by simp)
        · rintro (⟨hv, _⟩ | ⟨hv, _, _, hhi⟩)
          · rcases hv with hv | hv <;> exact absurd hv (by simp)
          · injection hv with hv
            subst hv
            exact absurd hhi (not_le.mpr h3)
      · simp only [not_not] at h1
        rw [not_lt] at h2 h3
        constructor
        · intro h
          injection h with h
          subst h
          exact Or.inr ⟨rfl, h1, h2, h3⟩
        · rintro (⟨hv, _⟩ | ⟨hv, _, _, _⟩)
          · rcases hv with hv | hv <;> exact absurd hv (by simp)
          · injection hv with hv
            subst hv
            rfl
    | b x => simp [validateIntervalMinutes]
    | s x => simp [validateIntervalMinutes]
    | obj fields => simp [validateIntervalMinutes]
  · simp only [validateIntervalMinutes]
    rw [if_pos (by norm_num)]

/-- Claim C4: a valid shop with no tenant binding and no store failure
resolves to `adminId = none` with no error field, and the status report
is `connected: false` with a `reason` and no `error` field; every
loader outcome produced from a resolver error carries an `error` field
and is therefore observably distinct from the absent-binding outcome. -/
theorem loader_not_linked_distinct (db db2 : Db) (shop s2 norm : String)
    (ce : ConnectionError)
    (hv : validateShopDomain (.s shop) = .ok norm)
    (hne : db.shopsErr = none)
    (hnb : db.shops.find? (fun r => r.1 == shopLookupKey shop) = none)
    (h2 : (getAdminIdForShop db2 s2).error = some ce) :
    getAdminIdForShop db shop = { adminId := none, error := none } ∧
    (loader db shop).status = 200 ∧
    (loader db shop).connected = some false ∧
    (loader db shop).reason = some notLinkedReason ∧
    (loader db shop).error = none ∧
    (loader db2 s2).error = some ce.message ∧
    loader db2 s2 ≠ loader db shop := by
  have hres : getAdminIdForShop db shop = { adminId := none, error := none } := by
    simp [getAdminIdForShop, hv, hne, hnb]
  have hl : (loader db shop).error = none := by
    simp [loader, hres]
  have hl2 : (loader db2 s2).error = some ce.message := by
    simp [loader, h2]
  refine ⟨hres, by simp [loader, hres], by simp [loader, hres], by simp [loader, hres], hl, hl2, ?_⟩
  intro hcontra
  rw [hcontra, hl] at hl2
  exact Option.noConfusion hl2

/-- Witness for C4: an unlinked shop in an empty store, against a
second store whose shops query fails. -/
theorem loader_not_linked_distinct_witness :
    getAdminIdForShop { shops := [], shopsErr := none, settings := [], settingsReadErr := none, settingsWriteErr := none } "shop1.myshopify.com" = { adminId := none, error := none } ∧
    (loader { shops := [], shopsErr := none, settings := [], settingsReadErr := none, settingsWriteErr := none } "shop1.myshopify.com").status = 200 ∧
    (loader { shops := [], shopsErr := none, settings := [], settingsReadErr := none, settingsWriteErr := none } "shop1.myshopify.com").connected = some false ∧
    (loader { shops := [], shopsErr := none, settings := [], settingsReadErr := none, settingsWriteErr := none } "shop1.myshopify.com").reason = some notLinkedReason ∧
    (loader { shops := [], shopsErr := none, settings := [], settingsReadErr := none, settingsWriteErr := none } "shop1.myshopify.com").error = none ∧
    (loader { shops := [], shopsErr := some { message := "boom", code := "", details := "" }, settings := [], settingsReadErr := none, settingsWriteErr := none } "shop1.myshopify.com").error = some (classifyStoreErr { message := "boom", code := "", details := "" }).message ∧
    loader { shops := [], shopsErr := some { message := "boom", code := "", details := "" }, settings := [], settingsReadErr := none, settingsWriteErr := none } "shop1.myshopify.com" ≠ loader { shops := [], shopsErr := none, settings := [], settingsReadErr := none, settingsWriteErr := none } "shop1.myshopify.com" :=
  loader_not_linked_distinct _ _ "shop1.myshopify.com" "shop1.myshopify.com" "shop1.myshopify.com"
    (classifyStoreErr { message := "boom", code := "", details := "" })
    (by decide) rfl rfl (by decide)

/-- Claim C6: with a tenant binding but a store-level failure on the
settings read, the loader degrades to partial availability: HTTP 200
with `connected: true`, the tenant id, `settings: null` and the error
message, instead of failing the whole report. -/
theorem loader_settings_failure_degrades (db : Db) (shop a m : String)
    (hres : getAdminIdForShop db shop = { adminId := some a, error := none })
    (herr : db.settingsReadErr = some m) :
    loader db shop =
      { status := 200, connected := some true, shopDomain := some shop,
        adminId := some a, reason := none, error := some m, errorType := none,
        errorDetails := none, troubleshooting := false, settings := some none } := by
  simp [loader, hres, herr]

/-- Witness for C6 at a concrete linked shop with a failing settings read. -/
theorem loader_settings_failure_degrades_witness :
    loader { shops := [("shop1.myshopify.com", .s "tenant-1")], shopsErr := none, settings := [], settingsReadErr := some "read failed", settingsWriteErr := none } "shop1.myshopify.com" =
      { status := 200, connected := some true, shopDomain := some "shop1.myshopify.com",
        adminId := some "tenant-1", reason := none, error := some "read failed", errorType := none,
        errorDetails := none, troubleshooting := false, settings := some none } :=
  loader_settings_failure_degrades _ _ "tenant-1" _ (by decide) rfl

/-- Claim C10: the resolver queries the binding table with the raw
caller-supplied shop domain, not the normalized value the validator
returns; so for any shop identity whose raw form differs from its
normalized form the two resolutions use different keys, and a store
holding the binding under the normalized key resolves the normalized
form but not the raw form. -/
theorem resolver_keyed_on_raw_domain (raw norm a : String)
    (h1 : validateShopDomain (.s raw) = .ok norm)
    (h2 : validateShopDomain (.s norm) = .ok norm)
    (h3 : norm ≠ raw)
    (h4 : validateAdminId (.s a) = .ok a)
    (h5 : a ≠ "") :
    shopLookupKey raw = raw ∧
    shopLookupKey raw ≠ shopLookupKey norm ∧
    getAdminIdForShop { shops := [(norm, .s a)], shopsErr := none, settings := [], settingsReadErr := none, settingsWriteErr := none } raw = { adminId := none, error := none } ∧
    getAdminIdForShop { shops := [(norm, .s a)], shopsErr := none, settings := [], settingsReadErr := none, settingsWriteErr := none } norm = { adminId := some a, error := none } := by
  have hbeq : (norm == raw) = false := by
    simp [h3]
  refine ⟨rfl, by simpa [shopLookupKey] using fun h => h3 h.symm, ?_, ?_⟩
  · simp [getAdminIdForShop, h1, shopLookupKey, hbeq]
  · simp [getAdminIdForShop, h2, shopLookupKey, jsTruthy, h5, h4]

/-- Witness for C10: the raw form with an upper-case letter misses the
binding stored under the normalized key. -/
theorem resolver_keyed_on_raw_domain_witness :
    shopLookupKey "Shop1.myshopify.com" = "Shop1.myshopify.com" ∧
    shopLookupKey "Shop1.myshopify.com" ≠ shopLookupKey "shop1.myshopify.com" ∧
    getAdminIdForShop { shops := [("shop1.myshopify.com", .s "tenant-1")], shopsErr := none, settings := [], settingsReadErr := none, settingsWriteErr := none } "Shop1.myshopify.com" = { adminId := none, error := none } ∧
    getAdminIdForShop { shops := [("shop1.myshopify.com", .s "tenant-1")], shopsErr := none, settings := [], settingsReadErr := none, settingsWriteErr := none } "shop1.myshopify.com" = { adminId := some "tenant-1", error := none } :=
  resolver_keyed_on_raw_domain _ _ "tenant-1" (by decide) (by decide) (by decide) (by decide) (by decide)

/-- An admin-id character is never JS whitespace. -/
lemma adminChar_not_white (c : Char) (h : isAdminChar c = true) : isJsWhite c = false := by
  cases hw : isJsWhite c with
  | false => rfl
  | true =>
    exfalso
    simp only [isJsWhite, Bool.or_eq_true, beq_iff_eq] at hw
    rcases hw with ((((rfl | rfl) | rfl) | rfl) | rfl) | rfl <;> exact absurd h (by decide)

/-- Lemma: `dropLeadWhite` leaves a list with no whitespace unchanged. -/
lemma dropLeadWhite_eq_self (l : List Char) (h : ∀ c ∈ l, isJsWhite c = false) :
    dropLeadWhite l = l := by
  cases l with
  | nil => rfl
  | cons c cs => simp [dropLeadWhite, h c (by simp)]

/-- Lemma: `jsTrim` leaves a string with no whitespace characters unchanged. -/
lemma jsTrim_eq_self (s : String) (h : ∀ c ∈ s.data, isJsWhite c = false) :
    jsTrim s = s := by
  unfold jsTrim
  rw [dropLeadWhite_eq_self s.data.reverse (by intro c hc; exact h c (List.mem_reverse.mp hc)),
    List.reverse_reverse, dropLeadWhite_eq_self s.data h]

/-- Inversion of `validateAdminId`: an accepted value is non-empty, at
most 255 characters, and within the restricted character set. -/
lemma validateAdminId_shape (x : JsVal) (v : String)
    (h : validateAdminId x = .ok v) :
    v ≠ "" ∧ v.length ≤ 255 ∧ v.data.all isAdminChar = true := by
  cases x with
  | s str =>
    simp only [validateAdminId] at h
    split_ifs at h with h1 h2 h3
    injection h with h
    subst h
    exact ⟨h1, Nat.not_lt.mp h2, h3⟩
  | undef => exact absurd h (by simp [validateAdminId])
  | jsNull => exact absurd h (by simp [validateAdminId])
  | b x => exact absurd h (by simp [validateAdminId])
  | n q => exact absurd h (by simp [validateAdminId])
  | obj fields => exact absurd h (by simp [validateAdminId])

/-- A value that already satisfies the admin-id shape is accepted and
returned unchanged by `validateAdminId`. -/
lemma validateAdminId_of_shape (v : String) (h1 : v ≠ "") (h2 : v.length ≤ 255)
    (h3 : v.data.all isAdminChar = true) :
    validateAdminId (.s v) = .ok v := by
  have htrim : jsTrim v = v := by
    refine jsTrim_eq_self v ?_
    intro c hc
    exact adminChar_not_white c (by simpa using List.all_eq_true.mp h3 c hc)
  simp [validateAdminId, htrim, h1, h3, Nat.not_lt.mpr h2]

/-- Idempotence: `validateAdminId` accepts its own output unchanged. -/
lemma validateAdminId_idem (x : JsVal) (v : String)
    (h : validateAdminId x = .ok v) :
    validateAdminId (.s v) = .ok v := by
  obtain ⟨h1, h2, h3⟩ := validateAdminId_shape x v h
  exact validateAdminId_of_shape v h1 h2 h3

/-- A tenant id returned by the resolver was accepted by
`validateAdminId` and so re-validates to itself. -/
lemma resolver_admin_revalidates (db : Db) (shop a : String)
    (h : getAdminIdForShop db shop = { adminId := some a, error := none }) :
    validateAdminId (.s a) = .ok a := by
  unfold getAdminIdForShop at h
  split at h
  · exact absurd h (by simp)
  · split at h
    · exact absurd h (by simp)
    · split at h
      · exact absurd h (by simp)
      · split at h
        · split at h
          · next v heq =>
            have hva : v = a := by
              simpa [ResolveRes.mk.injEq] using h
            exact hva ▸ validateAdminId_idem _ v heq
          · exact absurd h (by simp)
        · exact absurd h (by simp)

/-- Claim C1: when a linked tenant posts a body whose `intent` is a
string outside the closed set, the action responds 400 with the
invalid-intent error and mints no credential and makes no edge call:
`validateIntent` runs before `mintAppJwt`. -/
theorem action_invalid_intent_no_mint (db : Db) (edge : EdgeResponder)
    (secret : String) (isProd : Bool) (shop a : String) (body : ReqBody)
    (s : String) (now : Nat)
    (hres : getAdminIdForShop db shop = { adminId := some a, error := none })
    (hint : body.intent = .s s)
    (hs : s ∉ VALID_INTENTS) :
    (action db edge secret isProd shop (some body) now).resp.status = 400 ∧
    (action db edge secret isProd shop (some body) now).resp.body =
      .invalidIntent (sanitizeErrorMessage "Invalid intent. Must be one of: pull, push_changed, push_all, toggle_auto" isProd) ∧
    (action db edge secret isProd shop (some body) now).trace.mintCalls = [] ∧
    (action db edge secret isProd shop (some body) now).trace.edgeCalls = [] := by
  have hval : validateIntent body.intent =
      .error "Invalid intent. Must be one of: pull, push_changed, push_all, toggle_auto" := by
    simp [validateIntent, hint, hs]
  refine ⟨?_, ?_, ?_, ?_⟩ <;> simp [action, hres, hval]

/-- Witness for C1: intent "drop_all" for a linked tenant. -/
theorem action_invalid_intent_no_mint_witness :
    (action { shops := [("shop1.myshopify.com", .s "tenant-1")], shopsErr := none, settings := [], settingsReadErr := none, settingsWriteErr := none } (fun _ _ => { status := 200, text := "", json := none }) "k" false "shop1.myshopify.com" (some { intent := .s "drop_all", enabled := .undef, intervalMinutes := .undef }) 0).resp.status = 400 ∧
    (action { shops := [("shop1.myshopify.com", .s "tenant-1")], shopsErr := none, settings := [], settingsReadErr := none, settingsWriteErr := none } (fun _ _ => { status := 200, text := "", json := none }) "k" false "shop1.myshopify.com" (some { intent := .s "drop_all", enabled := .undef, intervalMinutes := .undef }) 0).resp.body =
      .invalidIntent (sanitizeErrorMessage "Invalid intent. Must be one of: pull, push_changed, push_all, toggle_auto" false) ∧
    (action { shops := [("shop1.myshopify.com", .s "tenant-1")], shopsErr := none, settings := [], settingsReadErr := none, settingsWriteErr := none } (fun _ _ => { status := 200, text := "", json := none }) "k" false "shop1.myshopify.com" (some { intent := .s "drop_all", enabled := .undef, intervalMinutes := .undef }) 0).trace.mintCalls = [] ∧
    (action { shops := [("shop1.myshopify.com", .s "tenant-1")], shopsErr := none, settings := [], settingsReadErr := none, settingsWriteErr := none } (fun _ _ => { status := 200, text := "", json := none }) "k" false "shop1.myshopify.com" (some { intent := .s "drop_all", enabled := .undef, intervalMinutes := .undef }) 0).trace.edgeCalls = [] :=
  action_invalid_intent_no_mint _ _ "k" false _ "tenant-1" _ "drop_all" 0
    (by decide) rfl (by decide)

/-- Counterexample to claim C5 as stated: a store row whose tenant
identifier is the empty string fails `validateAdminId`, yet the
resolver reports it as an absent binding (`adminId = none` with no
error field) rather than as an error. -/
theorem resolver_falsy_admin_counterexample :
    validateAdminId (.s "") = .error "Admin ID cannot be empty" ∧
    getAdminIdForShop { shops := [("shop1.myshopify.com", .s "")], shopsErr := none, settings := [], settingsReadErr := none, settingsWriteErr := none } "shop1.myshopify.com" =
      { adminId := none, error := none } := by
  exact ⟨by decide, by decide⟩

/-- Claim C5 (amended): when the binding lookup returns a row, a truthy
identifier failing `validateAdminId` makes the resolver return an error
and no tenant id; a falsy identifier is treated as an absent binding;
in both cases no identifier is returned and the action mints no
credential for that request. -/
theorem resolver_revalidates_admin (db : Db) (edge : EdgeResponder)
    (secret : String) (isProd : Bool) (shop norm m : String)
    (row : String × JsVal) (body? : Option ReqBody) (now : Nat)
    (hv : validateShopDomain (.s shop) = .ok norm)
    (hne : db.shopsErr = none)
    (hfind : db.shops.find? (fun r => r.1 == shopLookupKey shop) = some row)
    (hbad : validateAdminId row.2 = .error m) :
    (getAdminIdForShop db shop).adminId = none ∧
    (jsTruthy row.2 = true →
      (getAdminIdForShop db shop).error =
        some { type := .unknown, message := "Invalid admin ID format returned from database",
               details := none, statusCode := none }) ∧
    (jsTruthy row.2 = false → getAdminIdForShop db shop = { adminId := none, error := none }) ∧
    (action db edge secret isProd shop body? now).trace.mintCalls = [] := by
  cases ht : jsTruthy row.2 with
  | true =>
    have hres : getAdminIdForShop db shop =
        { adminId := none,
          error := some { type := .unknown, message := "Invalid admin ID format returned from database",
                          details := none, statusCode := none } } := by
      simp [getAdminIdForShop, hv, hne, hfind, ht, hbad]
    refine ⟨by simp [hres], fun _ => by simp [hres], fun hcontra => by simp at hcontra, ?_⟩
    simp [action, hres]
  | false =>
    have hres : getAdminIdForShop db shop = { adminId := none, error := none } := by
      simp [getAdminIdForShop, hv, hne, hfind, ht]
    refine ⟨by simp [hres], fun hcontra => by simp at hcontra, fun _ => hres, ?_⟩
    simp [action, hres]

/-- Witness for C5 (amended) at a store row holding a malformed truthy
identifier. -/
theorem resolver_revalidates_admin_witness :
    (getAdminIdForShop { shops := [("shop1.myshopify.com", .s "bad id!")], shopsErr := none, settings := [], settingsReadErr := none, settingsWriteErr := none } "shop1.myshopify.com").adminId = none ∧
    (jsTruthy (JsVal.s "bad id!") = true →
      (getAdminIdForShop { shops := [("shop1.myshopify.com", .s "bad id!")], shopsErr := none, settings := [], settingsReadErr := none, settingsWriteErr := none } "shop1.myshopify.com").error =
        some { type := .unknown, message := "Invalid admin ID format returned from database",
               details := none, statusCode := none }) ∧
    (jsTruthy (JsVal.s "bad id!") = false →
      getAdminIdForShop { shops := [("shop1.myshopify.com", .s "bad id!")], shopsErr := none, settings := [], settingsReadErr := none, settingsWriteErr := none } "shop1.myshopify.com" =
        { adminId := none, error := none }) ∧
    (action { shops := [("shop1.myshopify.com", .s "bad id!")], shopsErr := none, settings := [], settingsReadErr := none, settingsWriteErr := none } (fun _ _ => { status := 200, text := "", json := none }) "k" false "shop1.myshopify.com" none 0).trace.mintCalls = [] :=
  resolver_revalidates_admin _ _ "k" false "shop1.myshopify.com" "shop1.myshopify.com"
    "Admin ID contains invalid characters"
    ("shop1.myshopify.com", .s "bad id!") none 0 (by decide) rfl rfl (by decide)

/-- Claim C7: for a linked tenant each valid dispatch intent makes
exactly one edge-function call carrying the minted JWT as a bearer
credential — `pull` to the pull function with an empty payload,
`push_changed` to the push function with mode "changed", `push_all` to
the push function with mode "all" and force — and the job response
status and data are relayed back unchanged; the bearer token claims
the resolved tenant id as its subject. -/
theorem action_dispatch_routing (db : Db) (edge : EdgeResponder)
    (secret : String) (isProd : Bool) (shop a : String) (now : Nat)
    (e1 i1 e2 i2 e3 i3 : JsVal)
    (hres : getAdminIdForShop db shop = { adminId := some a, error := none }) :
    (action db edge secret isProd shop (some { intent := .s "pull", enabled := e1, intervalMinutes := i1 }) now).trace.edgeCalls =
      [{ fnName := "shopify-pull-products", authScheme := "Bearer", bearer := mintAppJwt secret a now, payload := [] }] ∧
    (action db edge secret isProd shop (some { intent := .s "pull", enabled := e1, intervalMinutes := i1 }) now).trace.mintCalls = [a] ∧
    (action db edge secret isProd shop (some { intent := .s "pull", enabled := e1, intervalMinutes := i1 }) now).resp.status =
      (edge "shopify-pull-products" []).status ∧
    (action db edge secret isProd shop (some { intent := .s "pull", enabled := e1, intervalMinutes := i1 }) now).resp.body =
      .relay (edgeData (edge "shopify-pull-products" [])) ∧
    (action db edge secret isProd shop (some { intent := .s "push_changed", enabled := e2, intervalMinutes := i2 }) now).trace.edgeCalls =
      [{ fnName := "shopify-push-products", authScheme := "Bearer", bearer := mintAppJwt secret a now, payload := [("mode", .s "changed")] }] ∧
    (action db edge secret isProd shop (some { intent := .s "push_changed", enabled := e2, intervalMinutes := i2 }) now).trace.mintCalls = [a] ∧
    (action db edge secret isProd shop (some { intent := .s "push_changed", enabled := e2, intervalMinutes := i2 }) now).resp.status =
      (edge "shopify-push-products" [("mode", .s "changed")]).status ∧
    (action db edge secret isProd shop (some { intent := .s "push_changed", enabled := e2, intervalMinutes := i2 }) now).resp.body =
      .relay (edgeData (edge "shopify-push-products" [("mode", .s "changed")])) ∧
    (action db edge secret isProd shop (some { intent := .s "push_all", enabled := e3, intervalMinutes := i3 }) now).trace.edgeCalls =
      [{ fnName := "shopify-push-products", authScheme := "Bearer", bearer := mintAppJwt secret a now, payload := [("mode", .s "all"), ("force", .b true)] }] ∧
    (action db edge secret isProd shop (some { intent := .s "push_all", enabled := e3, intervalMinutes := i3 }) now).trace.mintCalls = [a] ∧
    (action db edge secret isProd shop (some { intent := .s "push_all", enabled := e3, intervalMinutes := i3 }) now).resp.status =
      (edge "shopify-push-products" [("mode", .s "all"), ("force", .b true)]).status ∧
    (action db edge secret isProd shop (some { intent := .s "push_all", enabled := e3, intervalMinutes := i3 }) now).resp.body =
      .relay (edgeData (edge "shopify-push-products" [("mode", .s "all"), ("force", .b true)])) ∧
    (mintAppJwt secret a now).userId = a := by
  have hadmin : validateAdminId (.s a) = .ok a := resolver_admin_revalidates db shop a hres
  refine ⟨?_, ?_, ?_, ?_, ?_, ?_, ?_, ?_, ?_, ?_, ?_, ?_, rfl⟩ <;>
    simp [action, hres, hadmin, validateIntent, VALID_INTENTS, callEdgeFunction]

/-- Witness for C7 at a concrete linked store and a fixed edge responder. -/
theorem action_dispatch_routing_witness :
    (action { shops := [("shop1.myshopify.com", .s "tenant-1")], shopsErr := none, settings := [], settingsReadErr := none, settingsWriteErr := none } (fun fn _ => { status := 207, text := "t", json := some (.s fn) }) "k" false "shop1.myshopify.com" (some { intent := .s "pull", enabled := .undef, intervalMinutes := .undef }) 5).trace.edgeCalls =
      [{ fnName := "shopify-pull-products", authScheme := "Bearer", bearer := mintAppJwt "k" "tenant-1" 5, payload := [] }] ∧
    (action { shops := [("shop1.myshopify.com", .s "tenant-1")], shopsErr := none, settings := [], settingsReadErr := none, settingsWriteErr := none } (fun fn _ => { status := 207, text := "t", json := some (.s fn) }) "k" false "shop1.myshopify.com" (some { intent := .s "pull", enabled := .undef, intervalMinutes := .undef }) 5).trace.mintCalls = ["tenant-1"] ∧
    (action { shops := [("shop1.myshopify.com", .s "tenant-1")], shopsErr := none, settings := [], settingsReadErr := none, settingsWriteErr := none } (fun fn _ => { status := 207, text := "t", json := some (.s fn) }) "k" false "shop1.myshopify.com" (some { intent := .s "pull", enabled := .undef, intervalMinutes := .undef }) 5).resp.status =
      ((fun (fn : String) (_ : List (String × JsVal)) => ({ status := 207, text := "t", json := some (.s fn) } : EdgeHttpResp)) "shopify-pull-products" []).status ∧
    (action { shops := [("shop1.myshopify.com", .s "tenant-1")], shopsErr := none, settings := [], settingsReadErr := none, settingsWriteErr := none } (fun fn _ => { status := 207, text := "t", json := some (.s fn) }) "k" false "shop1.myshopify.com" (some { intent := .s "pull", enabled := .undef, intervalMinutes := .undef }) 5).resp.body =
      .relay (edgeData ((fun (fn : String) (_ : List (String × JsVal)) => ({ status := 207, text := "t", json := some (.s fn) } : EdgeHttpResp)) "shopify-pull-products" [])) ∧
    (action { shops := [("shop1.myshopify.com", .s "tenant-1")], shopsErr := none, settings := [], settingsReadErr := none, settingsWriteErr := none } (fun fn _ => { status := 207, text := "t", json := some (.s fn) }) "k" false "shop1.myshopify.com" (some { intent := .s "push_changed", enabled := .undef, intervalMinutes := .undef }) 5).trace.edgeCalls =
      [{ fnName := "shopify-push-products", authScheme := "Bearer", bearer := mintAppJwt "k" "tenant-1" 5, payload := [("mode", .s "changed")] }] ∧
    (action { shops := [("shop1.myshopify.com", .s "tenant-1")], shopsErr := none, settings := [], settingsReadErr := none, settingsWriteErr := none } (fun fn _ => { status := 207, text := "t", json := some (.s fn) }) "k" false "shop1.myshopify.com" (some { intent := .s "push_changed", enabled := .undef, intervalMinutes := .undef }) 5).trace.mintCalls = ["tenant-1"] ∧
    (action { shops := [("shop1.myshopify.com", .s "tenant-1")], shopsErr := none, settings := [], settingsReadErr := none, settingsWriteErr := none } (fun fn _ => { status := 207, text := "t", json := some (.s fn) }) "k" false "shop1.myshopify.com" (some { intent := .s "push_changed", enabled := .undef, intervalMinutes := .undef }) 5).resp.status =
      ((fun (fn : String) (_ : List (String × JsVal)) => ({ status := 207, text := "t", json := some (.s fn) } : EdgeHttpResp)) "shopify-push-products" [("mode", .s "changed")]).status ∧
    (action { shops := [("shop1.myshopify.com", .s "tenant-1")], shopsErr := none, settings := [], settingsReadErr := none, settingsWriteErr := none } (fun fn _ => { status := 207, text := "t", json := some (.s fn) }) "k" false "shop1.myshopify.com" (some { intent := .s "push_changed", enabled := .undef, intervalMinutes := .undef }) 5).resp.body =
      .relay (edgeData ((fun (fn : String) (_ : List (String × JsVal)) => ({ status := 207, text := "t", json := some (.s fn) } : EdgeHttpResp)) "shopify-push-products" [("mode", .s "changed")])) ∧
    (action { shops := [("shop1.myshopify.com", .s "tenant-1")], shopsErr := none, settings := [], settingsReadErr := none, settingsWriteErr := none } (fun fn _ => { status := 207, text := "t", json := some (.s fn) }) "k" false "shop1.myshopify.com" (some { intent := .s "push_all", enabled := .undef, intervalMinutes := .undef }) 5).trace.edgeCalls =
      [{ fnName := "shopify-push-products", authScheme := "Bearer", bearer := mintAppJwt "k" "tenant-1" 5, payload := [("mode", .s "all"), ("force", .b true)] }] ∧
    (action { shops := [("shop1.myshopify.com", .s "tenant-1")], shopsErr := none, settings := [], settingsReadErr := none, settingsWriteErr := none } (fun fn _ => { status := 207, text := "t", json := some (.s fn) }) "k" false "shop1.myshopify.com" (some { intent := .s "push_all", enabled := .undef, intervalMinutes := .undef }) 5).trace.mintCalls = ["tenant-1"] ∧
    (action { shops := [("shop1.myshopify.com", .s "tenant-1")], shopsErr := none, settings := [], settingsReadErr := none, settingsWriteErr := none } (fun fn _ => { status := 207, text := "t", json := some (.s fn) }) "k" false "shop1.myshopify.com" (some { intent := .s "push_all", enabled := .undef, intervalMinutes := .undef }) 5).resp.status =
      ((fun (fn : String) (_ : List (String × JsVal)) => ({ status := 207, text := "t", json := some (.s fn) } : EdgeHttpResp)) "shopify-push-products" [("mode", .s "all"), ("force", .b true)]).status ∧
    (action { shops := [("shop1.myshopify.com", .s "tenant-1")], shopsErr := none, settings := [], settingsReadErr := none, settingsWriteErr := none } (fun fn _ => { status := 207, text := "t", json := some (.s fn) }) "k" false "shop1.myshopify.com" (some { intent := .s "push_all", enabled := .undef, intervalMinutes := .undef }) 5).resp.body =
      .relay (edgeData ((fun (fn : String) (_ : List (String × JsVal)) => ({ status := 207, text := "t", json := some (.s fn) } : EdgeHttpResp)) "shopify-push-products" [("mode", .s "all"), ("force", .b true)])) ∧
    (mintAppJwt "k" "tenant-1" 5).userId = "tenant-1" :=
  action_dispatch_routing _ _ "k" false "shop1.myshopify.com" "tenant-1" 5
    .undef .undef .undef .undef .undef .undef (by decide)

/-- A character is alphanumeric exactly when it is a label character
other than the hyphen. -/
lemma isAlphaNum_eq (c : Char) : isAlphaNum c = (isLabelChar c && c != '-') := by
  by_cases hc : c = '-'
  · subst hc
    decide
  · have hbeq : (c == '-') = false := by simp [hc]
    simp [isLabelChar, hbeq]
    exact fun _ => hc

/-- The tail of the source regex label equals: all label characters and
the last one not a hyphen. -/
lemma tailOk_eq : ∀ l : List Char, l ≠ [] →
    tailOk l = (l.all isLabelChar && lastNotHyphen l)
  | [], h => absurd rfl h
  | [c], _ => by
    simp [tailOk, lastNotHyphen, isAlphaNum_eq c]
  | c :: d :: ds, _ => by
    have ih := tailOk_eq (d :: ds) (by simp)
    simp only [tailOk, lastNotHyphen, ih, List.all_cons, Bool.and_assoc]

/-- The source regex label condition is exactly the spec label
condition strengthened with a two-character minimum. -/
lemma labelOk_eq (l : List Char) : labelOk l = amendedLabelOk l := by
  match l with
  | [] => rfl
  | [c] =>
    simp [labelOk, amendedLabelOk]
  | c :: d :: ds =>
    have ht := tailOk_eq (d :: ds) (by simp)
    have hlen : decide (2 ≤ (c :: d :: ds).length) = true := by
      simp
    simp only [labelOk, amendedLabelOk, specLabelOk, lastNotHyphen, ht, hlen,
      List.all_cons, isAlphaNum_eq c, Bool.and_true]
    cases isLabelChar c <;> cases c != '-' <;>
      cases (d :: ds).all isLabelChar <;> cases lastNotHyphen (d :: ds) <;> simp

/-- The source shop-domain regex equals the amended pattern. -/
lemma shopPattern_eq_amended (s : String) : shopPattern s = amendedShopOk s := by
  simp only [shopPattern, amendedShopOk, amendedLabelOk, labelOk_eq]

/-- Claim C8 (amended): `validateShopDomain` returns the lower-cased
trimmed value exactly when the input is a string whose trimmed
lower-cased form is non-empty, at most 255 characters and matches the
domain pattern with a label of at least two characters (alphanumeric
and hyphen characters, not starting or ending with a hyphen) followed
by the fixed suffix; every other input fails. -/
theorem validateShopDomain_characterization (v : JsVal) (r : String) :
    validateShopDomain v = .ok r ↔
      ∃ s, v = .s s ∧ jsToLower (jsTrim s) = r ∧ r ≠ "" ∧ r.length ≤ 255 ∧
        amendedShopOk r = true := by
  cases v with
  | s str =>
    simp only [validateShopDomain]
    constructor
    · intro h
      split_ifs at h with h1 h2 h3
      injection h with h
      exact ⟨str, rfl, h, h ▸ h1, h ▸ Nat.not_lt.mp h2, h ▸ ((shopPattern_eq_amended _).symm.trans h3)⟩
    · rintro ⟨s, hs, hr, h1, h2, h3⟩
      injection hs with hs
      subst hs
      subst hr
      rw [if_neg h1, if_neg (Nat.not_lt.mpr h2),
        if_pos ((shopPattern_eq_amended _).trans h3)]
  | undef => simp [validateShopDomain]
  | jsNull => simp [validateShopDomain]
  | b x => simp [validateShopDomain]
  | n q => simp [validateShopDomain]
  | obj fields => simp [validateShopDomain]

/-- Counterexample to claim C8 as stated: "a.myshopify.com" is a
string, already trimmed, lower-case, non-empty, well under 255
characters, and its label "a" is alphanumeric and neither starts nor
ends with a hyphen — yet `validateShopDomain` rejects it, because the
source regex requires a label of at least two characters. -/
theorem validateShopDomain_single_label_counterexample :
    specShopOk "a.myshopify.com" = true ∧
    jsTrim "a.myshopify.com" = "a.myshopify.com" ∧
    jsToLower "a.myshopify.com" = "a.myshopify.com" ∧
    "a.myshopify.com" ≠ "" ∧
    ("a.myshopify.com" : String).length ≤ 255 ∧
    validateShopDomain (.s "a.myshopify.com") =
      .error "Invalid shop domain format. Must be in format: store.myshopify.com" :=
  ⟨by decide, by decide, by decide, by decide, by decide, by decide⟩

/-- The conflict update does not touch the key column. -/
lemma applySettingsUpdate_admin (en : Bool) (iv : ℚ) (t : Nat) (r : SettingsRow) :
    (applySettingsUpdate en iv t r).admin_id = r.admin_id := rfl

/-- Updating the same row twice with the same values is one update. -/
lemma applySettingsUpdate_idem (en : Bool) (iv : ℚ) (t : Nat) (r : SettingsRow) :
    applySettingsUpdate en iv t (applySettingsUpdate en iv t r) =
      applySettingsUpdate en iv t r := rfl

/-- The per-row updater of the upsert fixes the key test. -/
lemma upsertRowFun_key (a : String) (en : Bool) (iv : ℚ) (t : Nat) (r : SettingsRow) :
    ((if r.admin_id == a then applySettingsUpdate en iv t r else r).admin_id == a) =
      (r.admin_id == a) := by
  by_cases h : (r.admin_id == a) = true <;> simp [h, applySettingsUpdate]

/-- The per-row updater of the upsert is idempotent. -/
lemma upsertRowFun_idem (a : String) (en : Bool) (iv : ℚ) (t : Nat) (r : SettingsRow) :
    (fun r => if r.admin_id == a then applySettingsUpdate en iv t r else r)
      ((fun r => if r.admin_id == a then applySettingsUpdate en iv t r else r) r) =
    (fun r => if r.admin_id == a then applySettingsUpdate en iv t r else r) r := by
  by_cases h : (r.admin_id == a) = true
  · simp [h, applySettingsUpdate]
  · simp [h]

/-- Whether the tenant has a row is unchanged by the per-row updater. -/
lemma upsert_any_map (a : String) (en : Bool) (iv : ℚ) (t : Nat) :
    ∀ S : List SettingsRow,
      ((S.map (fun r => if r.admin_id == a then applySettingsUpdate en iv t r else r)).any
        (fun r => r.admin_id == a)) = S.any (fun r => r.admin_id == a)
  | [] => rfl
  | x :: xs => by
    rw [List.map_cons, List.any_cons, List.any_cons, upsertRowFun_key,
      upsert_any_map a en iv t xs]

/-- The tenant filter commutes with the per-row updater. -/
lemma upsert_filter_map (a : String) (en : Bool) (iv : ℚ) (t : Nat) :
    ∀ S : List SettingsRow,
      ((S.map (fun r => if r.admin_id == a then applySettingsUpdate en iv t r else r)).filter
        (fun row => row.admin_id == a)) =
      ((S.filter (fun row => row.admin_id == a)).map
        (fun r => if r.admin_id == a then applySettingsUpdate en iv t r else r))
  | [] => rfl
  | x :: xs => by
    by_cases hx : (x.admin_id == a) = true
    · have hfx : ((applySettingsUpdate en iv t x).admin_id == a) = true := by
        rw [applySettingsUpdate_admin]
        exact hx
      rw [List.map_cons, if_pos hx, List.filter_cons, List.filter_cons, if_pos hfx,
        if_pos hx, List.map_cons, if_pos hx, upsert_filter_map a en iv t xs]
    · rw [List.map_cons, if_neg hx, List.filter_cons, List.filter_cons, if_neg hx,
        if_neg hx, upsert_filter_map a en iv t xs]

/-- A store with no row for the tenant is untouched by the per-row
updater. -/
lemma upsert_map_self (a : String) (en : Bool) (iv : ℚ) (t : Nat) :
    ∀ S : List SettingsRow, S.any (fun r => r.admin_id == a) = false →
      S.map (fun r => if r.admin_id == a then applySettingsUpdate en iv t r else r) = S
  | [], _ => rfl
  | x :: xs, h => by
    rw [List.any_cons, Bool.or_eq_false_iff] at h
    have hx : ¬((x.admin_id == a) = true) := by
      rw [h.1]
      exact Bool.false_ne_true
    rw [List.map_cons, if_neg hx, upsert_map_self a en iv t xs h.2]

/-- In a store holding a row for the tenant, the updater puts the
updated first such row at the head of the tenant filter. -/
lemma upsert_find_map (a : String) (en : Bool) (iv : ℚ) (t : Nat) :
    ∀ S : List SettingsRow, S.any (fun r => r.admin_id == a) = true →
      ∃ r0, ((S.map (fun r => if r.admin_id == a then applySettingsUpdate en iv t r else r)).find?
        (fun row => row.admin_id == a)) = some (applySettingsUpdate en iv t r0) ∧
        (r0.admin_id == a) = true
  | [], h => by exact absurd h (by simp)
  | x :: xs, h => by
    by_cases hx : (x.admin_id == a) = true
    · have hfx : ((applySettingsUpdate en iv t x).admin_id == a) = true := by
        rw [applySettingsUpdate_admin]
        exact hx
      refine ⟨x, ?_, hx⟩
      rw [List.map_cons, if_pos hx]
      exact @List.find?_cons_of_pos _ (fun row => row.admin_id == a)
        (applySettingsUpdate en iv t x) _ hfx
    · have hxs : xs.any (fun r => r.admin_id == a) = true := by
        rw [List.any_cons] at h
        rcases Bool.or_eq_true_iff.mp h with h1 | h1
        · exact absurd h1 hx
        · exact h1
      obtain ⟨r0, hr0, hp0⟩ := upsert_find_map a en iv t xs hxs
      refine ⟨r0, ?_, hp0⟩
      rw [List.map_cons, if_neg hx]
      rw [@List.find?_cons_of_neg _ (fun row => row.admin_id == a) x _ hx, hr0]

/-- After the upsert there is exactly one settings row for the tenant,
provided the store respected the uniqueness of the key before. -/
lemma upsertSettings_filter_length (S : List SettingsRow) (a : String) (en : Bool)
    (iv : ℚ) (t : Nat)
    (h : (S.filter (fun row => row.admin_id == a)).length ≤ 1) :
    ((upsertSettings S a en iv t).filter (fun row => row.admin_id == a)).length = 1 := by
  unfold upsertSettings
  split
  · next hany =>
    rw [upsert_filter_map, List.length_map]
    obtain ⟨x, hx, hpx⟩ := List.any_eq_true.mp hany
    have hmem : x ∈ S.filter fun row => row.admin_id == a := List.mem_filter.mpr ⟨hx, hpx⟩
    have hpos : 0 < (S.filter fun row => row.admin_id == a).length :=
      List.length_pos.mpr (List.ne_nil_of_mem hmem)
    omega
  · next hany =>
    have h0 : S.filter (fun row => row.admin_id == a) = [] := by
      rw [List.filter_eq_nil_iff]
      intro x hx hpx
      exact hany (List.any_eq_true.mpr ⟨x, hx, hpx⟩)
    rw [List.filter_append, h0]
    simp [freshSettingsRow]

/-- The row found for the tenant after the upsert carries the upserted
values. -/
lemma upsertSettings_find (S : List SettingsRow) (a : String) (en : Bool)
    (iv : ℚ) (t : Nat) :
    ∃ r, (upsertSettings S a en iv t).find? (fun row => row.admin_id == a) = some r ∧
      r.admin_id = a ∧ r.auto_sync_enabled = en ∧ r.auto_sync_interval_minutes = iv ∧
      r.updated_at = t := by
  unfold upsertSettings
  split
  · next hany =>
    obtain ⟨r0, hr0, hp0⟩ := upsert_find_map a en iv t S hany
    refine ⟨applySettingsUpdate en iv t r0, hr0, ?_, rfl, rfl, rfl⟩
    rw [applySettingsUpdate_admin]
    exact beq_iff_eq.mp hp0
  · next hany =>
    have hnone : S.find? (fun row => row.admin_id == a) = none := by
      rw [List.find?_eq_none]
      intro x hx hpx
      exact hany (List.any_eq_true.mpr ⟨x, hx, hpx⟩)
    refine ⟨freshSettingsRow a en iv t, ?_, rfl, rfl, rfl, rfl⟩
    rw [List.find?_append, hnone, Option.none_or]
    exact @List.find?_cons_of_pos _ (fun row => row.admin_id == a)
      (freshSettingsRow a en iv t) _ (by simp [freshSettingsRow])

/-- The settings upsert is idempotent: repeating it with the same
values at the same time leaves the store unchanged. -/
lemma upsertSettings_idem (S : List SettingsRow) (a : String) (en : Bool)
    (iv : ℚ) (t : Nat) :
    upsertSettings (upsertSettings S a en iv t) a en iv t =
      upsertSettings S a en iv t := by
  unfold upsertSettings
  split
  · next hany =>
    have hany2 : ((S.map (fun r => if r.admin_id == a then applySettingsUpdate en iv t r else r)).any
        (fun r => r.admin_id == a)) = true := by
      rw [upsert_any_map, hany]
    rw [if_pos hany2, List.map_map]
    have hmm : S.map ((fun r => if r.admin_id == a then applySettingsUpdate en iv t r else r) ∘
        (fun r => if r.admin_id == a then applySettingsUpdate en iv t r else r)) =
        S.map (fun r => if r.admin_id == a then applySettingsUpdate en iv t r else r) :=
      List.map_congr_left (fun r _ => upsertRowFun_idem a en iv t r)
    rw [hmm]
  · next hany =>
    have hanyF : S.any (fun r => r.admin_id == a) = false := by
      cases hca : S.any (fun r => r.admin_id == a) with
      | false => rfl
      | true => exact absurd hca hany
    have hany2 : ((S ++ [freshSettingsRow a en iv t]).any
        (fun r => r.admin_id == a)) = true := by
      rw [List.any_append]
      simp [freshSettingsRow]
    rw [if_pos hany2, List.map_append, upsert_map_self a en iv t S hanyF,
      List.map_cons, List.map_nil]
    have h2 : (if (freshSettingsRow a en iv t).admin_id == a then
        applySettingsUpdate en iv t (freshSettingsRow a en iv t)
      else freshSettingsRow a en iv t) = freshSettingsRow a en iv t := by
      simp [freshSettingsRow, applySettingsUpdate]
    rw [h2]

/-- Claim C3: for a linked tenant, dispatching `toggle_auto` with
enabled true and 30 minutes succeeds with the echoed settings, leaves
exactly one settings row for the tenant, and a subsequent status read
reflects `auto_sync_enabled = true` and interval 30; dispatching the
same toggle again still leaves exactly one row, and repeating it at
the same time leaves the store identical (idempotent upsert keyed on
the tenant id, never a second row). -/
theorem action_toggle_roundtrip_idempotent (db : Db) (edge : EdgeResponder)
    (secret : String) (isProd : Bool) (shop a : String) (now now2 : Nat)
    (hres : getAdminIdForShop db shop = { adminId := some a, error := none })
    (hw : db.settingsWriteErr = none)
    (hr : db.settingsReadErr = none)
    (hcount : (db.settings.filter (fun row => row.admin_id == a)).length ≤ 1) :
    (action db edge secret isProd shop (some { intent := .s "toggle_auto", enabled := .b true, intervalMinutes := .n 30 }) now).resp.status = 200 ∧
    (action db edge secret isProd shop (some { intent := .s "toggle_auto", enabled := .b true, intervalMinutes := .n 30 }) now).resp.body = .toggleOk true 30 ∧
    (((action db edge secret isProd shop (some { intent := .s "toggle_auto", enabled := .b true, intervalMinutes := .n 30 }) now).db.settings.filter (fun row => row.admin_id == a)).length = 1) ∧
    (∃ view, (loader (action db edge secret isProd shop (some { intent := .s "toggle_auto", enabled := .b true, intervalMinutes := .n 30 }) now).db shop).settings = some (some view) ∧
      view.auto_sync_enabled = true ∧ view.auto_sync_interval_minutes = 30) ∧
    (((action (action db edge secret isProd shop (some { intent := .s "toggle_auto", enabled := .b true, intervalMinutes := .n 30 }) now).db edge secret isProd shop (some { intent := .s "toggle_auto", enabled := .b true, intervalMinutes := .n 30 }) now2).db.settings.filter (fun row => row.admin_id == a)).length = 1) ∧
    (action (action db edge secret isProd shop (some { intent := .s "toggle_auto", enabled := .b true, intervalMinutes := .n 30 }) now).db edge secret isProd shop (some { intent := .s "toggle_auto", enabled := .b true, intervalMinutes := .n 30 }) now).db =
      (action db edge secret isProd shop (some { intent := .s "toggle_auto", enabled := .b true, intervalMinutes := .n 30 }) now).db := by
  have hadmin : validateAdminId (.s a) = .ok a := resolver_admin_revalidates db shop a hres
  have hvi : validateIntent (.s "toggle_auto") = .ok "toggle_auto" := by decide
  have hiv : validateIntervalMinutes (.n 30) 15 = .ok 30 := by decide
  have hact : ∀ (db0 : Db) (t' : Nat),
      getAdminIdForShop db0 shop = { adminId := some a, error := none } →
      db0.settingsWriteErr = none →
      action db0 edge secret isProd shop (some { intent := .s "toggle_auto", enabled := .b true, intervalMinutes := .n 30 }) t' =
        { resp := { status := 200, body := .toggleOk true 30 }
          trace := { mintCalls := [a], edgeCalls := [] }
          db := { db0 with settings := upsertSettings db0.settings a true 30 t' } } := by
    intro db0 t' h1 h2
    simp [action, h1, hadmin, hvi, hiv, h2, jsTruthy]
  have hres2 : getAdminIdForShop { db with settings := upsertSettings db.settings a true 30 now } shop =
      { adminId := some a, error := none } := hres
  have hc1 : ((upsertSettings db.settings a true 30 now).filter (fun row => row.admin_id == a)).length = 1 :=
    upsertSettings_filter_length db.settings a true 30 now hcount
  refine ⟨?_, ?_, ?_, ?_, ?_, ?_⟩
  · rw [hact db now hres hw]
  · rw [hact db now hres hw]
  · rw [hact db now hres hw]
    exact hc1
  · rw [hact db now hres hw]
    obtain ⟨r, hfind, hra, hen, hiv2, hup⟩ := upsertSettings_find db.settings a true 30 now
    refine ⟨settingsView r, ?_, hen, hiv2⟩
    simp only [loader, hres2]
    simp [hr, hfind]
  · rw [hact db now hres hw, hact { db with settings := upsertSettings db.settings a true 30 now } now2 hres2 hw]
    exact upsertSettings_filter_length _ a true 30 now2 (le_of_eq hc1)
  · rw [hact db now hres hw, hact { db with settings := upsertSettings db.settings a true 30 now } now hres2 hw]
    simp [upsertSettings_idem]

/-- Witness for C3 at a concrete linked store with one pre-existing
settings row for the tenant. -/
theorem action_toggle_roundtrip_idempotent_witness :
    (action { shops := [("shop1.myshopify.com", .s "tenant-1")], shopsErr := none, settings := [{ admin_id := "tenant-1", auto_sync_enabled := false, auto_sync_interval_minutes := 15, last_pull_at := none, last_push_at := none, created_at := 0, updated_at := 0 }], settingsReadErr := none, settingsWriteErr := none } (fun _ _ => { status := 200, text := "", json := none }) "k" false "shop1.myshopify.com" (some { intent := .s "toggle_auto", enabled := .b true, intervalMinutes := .n 30 }) 7).resp.status = 200 ∧
    (action { shops := [("shop1.myshopify.com", .s "tenant-1")], shopsErr := none, settings := [{ admin_id := "tenant-1", auto_sync_enabled := false, auto_sync_interval_minutes := 15, last_pull_at := none, last_push_at := none, created_at := 0, updated_at := 0 }], settingsReadErr := none, settingsWriteErr := none } (fun _ _ => { status := 200, text := "", json := none }) "k" false "shop1.myshopify.com" (some { intent := .s "toggle_auto", enabled := .b true, intervalMinutes := .n 30 }) 7).resp.body = .toggleOk true 30 ∧
    (((action { shops := [("shop1.myshopify.com", .s "tenant-1")], shopsErr := none, settings := [{ admin_id := "tenant-1", auto_sync_enabled := false, auto_sync_interval_minutes := 15, last_pull_at := none, last_push_at := none, created_at := 0, updated_at := 0 }], settingsReadErr := none, settingsWriteErr := none } (fun _ _ => { status := 200, text := "", json := none }) "k" false "shop1.myshopify.com" (some { intent := .s "toggle_auto", enabled := .b true, intervalMinutes := .n 30 }) 7).db.settings.filter (fun row => row.admin_id == "tenant-1")).length = 1) ∧
    (∃ view, (loader (action { shops := [("shop1.myshopify.com", .s "tenant-1")], shopsErr := none, settings := [{ admin_id := "tenant-1", auto_sync_enabled := false, auto_sync_interval_minutes := 15, last_pull_at := none, last_push_at := none, created_at := 0, updated_at := 0 }], settingsReadErr := none, settingsWriteErr := none } (fun _ _ => { status := 200, text := "", json := none }) "k" false "shop1.myshopify.com" (some { intent := .s "toggle_auto", enabled := .b true, intervalMinutes := .n 30 }) 7).db "shop1.myshopify.com").settings = some (some view) ∧
      view.auto_sync_enabled = true ∧ view.auto_sync_interval_minutes = 30) ∧
    (((action (action { shops := [("shop1.myshopify.com", .s "tenant-1")], shopsErr := none, settings := [{ admin_id := "tenant-1", auto_sync_enabled := false, auto_sync_interval_minutes := 15, last_pull_at := none, last_push_at := none, created_at := 0, updated_at := 0 }], settingsReadErr := none, settingsWriteErr := none } (fun _ _ => { status := 200, text := "", json := none }) "k" false "shop1.myshopify.com" (some { intent := .s "toggle_auto", enabled := .b true, intervalMinutes := .n 30 }) 7).db (fun _ _ => { status := 200, text := "", json := none }) "k" false "shop1.myshopify.com" (some { intent := .s "toggle_auto", enabled := .b true, intervalMinutes := .n 30 }) 9).db.settings.filter (fun row => row.admin_id == "tenant-1")).length = 1) ∧
    (action (action { shops := [("shop1.myshopify.com", .s "tenant-1")], shopsErr := none, settings := [{ admin_id := "tenant-1", auto_sync_enabled := false, auto_sync_interval_minutes := 15, last_pull_at := none, last_push_at := none, created_at := 0, updated_at := 0 }], settingsReadErr := none, settingsWriteErr := none } (fun _ _ => { status := 200, text := "", json := none }) "k" false "shop1.myshopify.com" (some { intent := .s "toggle_auto", enabled := .b true, intervalMinutes := .n 30 }) 7).db (fun _ _ => { status := 200, text := "", json := none }) "k" false "shop1.myshopify.com" (some { intent := .s "toggle_auto", enabled := .b true, intervalMinutes := .n 30 }) 7).db =
      (action { shops := [("shop1.myshopify.com", .s "tenant-1")], shopsErr := none, settings := [{ admin_id := "tenant-1", auto_sync_enabled := false, auto_sync_interval_minutes := 15, last_pull_at := none, last_push_at := none, created_at := 0, updated_at := 0 }], settingsReadErr := none, settingsWriteErr := none } (fun _ _ => { status := 200, text := "", json := none }) "k" false "shop1.myshopify.com" (some { intent := .s "toggle_auto", enabled := .b true, intervalMinutes := .n 30 }) 7).db :=
  action_toggle_roundtrip_idempotent _ _ "k" false "shop1.myshopify.com" "tenant-1" 7 9
    (by decide) rfl rfl (by decide)

end GetInv
